import Mathlib

/-!
Verification development for the audio-timeline-driven animation and
scene-state coordinator of the karaoke-bar scene (src/audio.js, src/main.js).

The JavaScript source is shallowly embedded: module-level mutable variables
become fields of explicit state structures, per-frame handlers become pure
state-transition functions, and floating-point numbers become exact rationals.
`Date.now()` is passed in as an explicit `now : ℤ` argument (milliseconds).
-/

/-! ## Basic geometry: THREE.Vector3 restricted to the operations the code uses -/

structure Vec3 where
  x : ℚ
  y : ℚ
  z : ℚ
deriving DecidableEq, Repr

/-- THREE.Vector3.lerp: `this + (target - this) * alpha`, componentwise. -/
def lerpV3 (a b : Vec3) (t : ℚ) : Vec3 :=
  ⟨a.x + (b.x - a.x) * t, a.y + (b.y - a.y) * t, a.z + (b.z - a.z) * t⟩

/-- THREE.Vector3.lerpVectors: `v1 + (v2 - v1) * alpha`, componentwise. -/
def lerpVectors (v1 v2 : Vec3) (t : ℚ) : Vec3 :=
  ⟨v1.x + (v2.x - v1.x) * t, v1.y + (v2.y - v1.y) * t, v1.z + (v2.z - v1.z) * t⟩

/-- The IEEE-754 double value of `Math.PI`, as an exact rational
(884279719003555 / 2^48). -/
def mathPI : ℚ := 884279719003555 / 281474976710656

/-! ## FrequencyAnalyzer: getAverageFrequency (src/audio.js lines 1131-1142)

`audioData` is the analyser byte buffer (`Uint8Array`, entries in [0,255]),
modelled as a `List ℕ`; before the audio loads it is the empty array. -/

/-- src/audio.js `getAverageFrequency(start, end)`:
`length = Math.min(end, audioData.length) - start`; returns 0 if
`length <= 0`, otherwise the mean of `audioData[start .. min(end,len))`
normalized by 255. -/
def getAverageFrequency (audioData : List ℕ) (start stop : ℕ) : ℚ :=
  let length : ℤ := (min stop audioData.length : ℤ) - (start : ℤ)
  if length ≤ 0 then 0
  else (∑ i in Finset.Ico start (min stop audioData.length),
          ((audioData.getD i 0 : ℕ) : ℚ)) / (length : ℚ) / 255

/-! ## One-shot cue triggers (src/audio.js lines 577-583, 922-960, 142-214)

Module-level mutable flags and the playback clock become an explicit state
record. The one-shot trigger section at the top of
`updateAudioReactiveElements` becomes a pure step function that also reports
which cues fired this frame. -/

inductive CueKind where
  | sceneTransition
  | explosion
  | ret
deriving DecidableEq, BEq, Repr

structure AudioTriggerState where
  sceneTransitionTriggered : Bool
  explosionTriggered : Bool
  returnTriggered : Bool
  preventSecondExplosion : Bool
  isAudioPlaying : Bool
  audioStartTime : ℤ
  hasAnalyser : Bool
  currentScene : String
  hasTransitionFn : Bool
deriving DecidableEq, Repr

def sceneTransitionTime : ℤ := 5000
def explosionTime : ℤ := 66000
def returnToPositionTime : ℤ := 135000

/-- The scene-transition trigger check (src/audio.js lines 937-946). -/
def fireSceneTransition (t : ℤ) (s : AudioTriggerState) :
    AudioTriggerState × List CueKind :=
  if s.sceneTransitionTriggered = false ∧ s.isAudioPlaying = true ∧
      sceneTransitionTime ≤ t ∧ s.hasTransitionFn = true ∧
      s.currentScene = "exterior" then
    ({ s with sceneTransitionTriggered := true }, [CueKind.sceneTransition])
  else (s, [])

/-- The explosion trigger check (src/audio.js lines 949-953). -/
def fireExplosion (t : ℤ) (s : AudioTriggerState) :
    AudioTriggerState × List CueKind :=
  if s.explosionTriggered = false ∧ s.preventSecondExplosion = false ∧
      s.isAudioPlaying = true ∧ explosionTime ≤ t then
    ({ s with explosionTriggered := true }, [CueKind.explosion])
  else (s, [])

/-- The return trigger check (src/audio.js lines 956-959). -/
def fireReturn (t : ℤ) (s : AudioTriggerState) :
    AudioTriggerState × List CueKind :=
  if s.explosionTriggered = true ∧ s.returnTriggered = false ∧
      s.isAudioPlaying = true ∧ returnToPositionTime ≤ t then
    ({ s with returnTriggered := true }, [CueKind.ret])
  else (s, [])

/-- The one-shot trigger section of `updateAudioReactiveElements`
(src/audio.js lines 922-960): guard on analyser and playback, compute
`currentPlaybackTime = Date.now() - audioStartTime`, then run the three
sequential trigger checks on the shared mutable flags. -/
def fireOneShotCues (now : ℤ) (s : AudioTriggerState) :
    AudioTriggerState × List CueKind :=
  if s.hasAnalyser = false ∨ s.isAudioPlaying = false then (s, [])
  else
    let t := now - s.audioStartTime
    let r1 := fireSceneTransition t s
    let r2 := fireExplosion t r1.1
    let r3 := fireReturn t r2.1
    (r3.1, r1.2 ++ r2.2 ++ r3.2)

/-- The play branch of the play-button click handler (src/audio.js lines
176-197): start playback, reset the playback clock to `now`, and reset all
four one-shot trigger flags. -/
def playButtonStart (now : ℤ) (s : AudioTriggerState) : AudioTriggerState :=
  { s with isAudioPlaying := true, audioStartTime := now,
           sceneTransitionTriggered := false, explosionTriggered := false,
           returnTriggered := false, preventSecondExplosion := false }

/-- Iterate `fireOneShotCues` over a list of frame timestamps, collecting
all fired cues. -/
def runCues : List ℤ → AudioTriggerState → AudioTriggerState × List CueKind
  | [], s => (s, [])
  | now :: rest, s =>
    let r1 := fireOneShotCues now s
    let r2 := runCues rest r1.1
    (r2.1, r1.2 ++ r2.2)

/-- Number of occurrences of cue kind `k` in a fired-cue list. -/
def countCue (k : CueKind) (evs : List CueKind) : ℕ :=
  (evs.filter (fun e => e = k)).length

/-- The latch flag guarding cue kind `k`. -/
def cueFlag (k : CueKind) (s : AudioTriggerState) : Bool :=
  match k with
  | CueKind.sceneTransition => s.sceneTransitionTriggered
  | CueKind.explosion => s.explosionTriggered
  | CueKind.ret => s.returnTriggered

/-! ## SceneStateController (src/main.js lines 283-375, 3076-3082)

The module-level variables `currentScene`, `nextScene`, `transitionProgress`,
`isTransitioning`, `doorOpening`, `doorOpeningProgress` together with the
written camera pose and door rotation become one state record. JS variables
that can hold `null` are modelled as `Option`. -/

structure TransitionState where
  currentScene : Option String
  nextScene : Option String
  transitionProgress : ℚ
  isTransitioning : Bool
  doorOpening : Bool
  doorOpeningProgress : ℚ
  doorRotationY : ℚ
  cameraPosition : Vec3
  controlsTarget : Vec3
deriving DecidableEq, Repr

def TRANSITION_DURATION : ℚ := 5
def doorAnimationDuration : ℚ := 2

/-- src/main.js `cameraPositions.exterior`: (position, target). -/
def cameraPositionsExterior : Vec3 × Vec3 := (⟨0, 2, 25⟩, ⟨0, 2, 0⟩)

/-- src/main.js `cameraPositions.interior`: (position, target). -/
def cameraPositionsInterior : Vec3 × Vec3 := (⟨0, 2, -3⟩, ⟨0, 2, -7⟩)

def doorRotationStart : ℚ := 0
def doorRotationEnd : ℚ := -mathPI / 2

/-- THREE.MathUtils.smoothstep(x, min, max). -/
def smoothstep (x mn mx : ℚ) : ℚ :=
  if x ≤ mn then 0
  else if x ≥ mx then 1
  else
    let t := (x - mn) / (mx - mn)
    t * t * (3 - 2 * t)

/-- THREE.MathUtils.lerp(x, y, t). -/
def mathLerp (x y t : ℚ) : ℚ := x + (y - x) * t

/-- src/main.js `transitionToScene` (lines 305-314): ignore the request when
it names the current scene or a transition is already in flight. -/
def transitionToScene (sceneName : String) (s : TransitionState) : TransitionState :=
  if some sceneName = s.currentScene ∨ s.isTransitioning = true then s
  else
    { s with nextScene := some sceneName, transitionProgress := 0,
             isTransitioning := true, doorOpening := true,
             doorOpeningProgress := 0 }

/-- src/main.js `updateSceneTransition` (lines 320-375): door phase, camera
progress, completion flip, and the unconditional camera interpolation from
the exterior pose to the interior pose. -/
def updateSceneTransition (deltaTime : ℚ) (s : TransitionState) : TransitionState :=
  if s.isTransitioning = false then s
  else
    let s1 :=
      if s.doorOpening = true then
        let dp0 := s.doorOpeningProgress + deltaTime / doorAnimationDuration
        let dp := if dp0 ≥ 1 then 1 else dp0
        let opening := if dp0 ≥ 1 then false else s.doorOpening
        let rot := mathLerp doorRotationStart doorRotationEnd (smoothstep dp 0 1)
        let tp :=
          if dp > 1/2 then s.transitionProgress + deltaTime / TRANSITION_DURATION
          else s.transitionProgress
        { s with doorOpeningProgress := dp, doorOpening := opening,
                 doorRotationY := rot, transitionProgress := tp }
      else
        { s with transitionProgress :=
                   s.transitionProgress + deltaTime / TRANSITION_DURATION }
    let s2 :=
      if s1.transitionProgress ≥ 1 then
        { s1 with transitionProgress := 1, isTransitioning := false,
                  currentScene := s1.nextScene, nextScene := none }
      else s1
    { s2 with
      cameraPosition := lerpVectors cameraPositionsExterior.1 cameraPositionsInterior.1
        (smoothstep s2.transitionProgress 0 1),
      controlsTarget := lerpVectors cameraPositionsExterior.2 cameraPositionsInterior.2
        (smoothstep s2.transitionProgress 0 1) }

/-- src/main.js spacebar keydown handler (lines 3076-3082): toggle to the
other scene when no transition is in flight. -/
def spacebarToggle (s : TransitionState) : TransitionState :=
  if s.isTransitioning = false then
    let nextSceneName :=
      if s.currentScene = some "exterior" then "interior" else "exterior"
    transitionToScene nextSceneName s
  else s

/-- A state at rest in the interior scene, used as a concrete scenario. -/
def interiorRestState : TransitionState :=
  ⟨some "interior", none, 1, false, false, 1, -mathPI / 2, ⟨0, 2, -3⟩, ⟨0, 2, -7⟩⟩

/-! ## LyricPresenter (src/audio.js lines 24-47, 142-214, 338-441)

Cue times of the three stanzas of four lines, and the state machine of
`updateLyrics` / `createNewStanza` / `showNextLine` and the play-button
handler. DOM elements are reduced to presence booleans; the fade timeouts
only touch DOM opacity and are not part of the cue state machine. -/

/-- The timestamps (ms) of the `lyrics` table (src/audio.js lines 24-47). -/
def lyricsTimes : List (List ℤ) :=
  [[26500, 32500, 38500, 43500],
   [80000, 86000, 92000, 99000],
   [134000, 140000, 146000, 151000]]

structure LyricState where
  isAudioPlaying : Bool
  audioStartTime : ℤ
  currentStanzaIndex : ℤ
  currentLineIndex : ℤ
  lyricsContainer : Bool
  stanzaContainer : Bool
deriving DecidableEq, Repr

inductive LyricEvent where
  | stanzaShown (i : ℕ)
  | lineShown (i : ℕ)
deriving DecidableEq, Repr

/-- The scan-with-break pattern of both loops in `updateLyrics`: the first
index `idx` (in order) whose cue time has been reached (`time ≤ t`) and which
is beyond the current index `cur`. -/
def firstDue (t cur : ℤ) : List ℤ → ℕ → Option ℕ
  | [], _ => none
  | tm :: rest, idx =>
      if tm ≤ t ∧ cur < (idx : ℤ) then some idx
      else firstDue t cur rest (idx + 1)

/-- The first-line time of each stanza (`stanza[0].time` in the stanza scan
of `updateLyrics`). -/
def stanzaFirstTimes : List ℤ := lyricsTimes.map (fun st => st.headD 0)

/-- The cue-time list of stanza `i` (`lyrics[currentStanzaIndex]`). -/
def stanzaAt (i : ℤ) : List ℤ := lyricsTimes.getD i.toNat []

/-- src/audio.js `createNewStanza` (lines 394-437), state part: set the new
stanza index, reset the line index, create a fresh stanza container. -/
def createNewStanza (i : ℕ) (s : LyricState) : LyricState :=
  { s with currentStanzaIndex := (i : ℤ), currentLineIndex := -1,
           stanzaContainer := true }

/-- src/audio.js `showNextLine` (lines 439-441 ff.), state part. -/
def showNextLine (i : ℕ) (s : LyricState) : LyricState :=
  { s with currentLineIndex := (i : ℤ) }

/-- src/audio.js `updateLyrics` (lines 338-392): guard, stanza scan over the
first-line times, then line scan within the active stanza. Returns the new
state and the cues that fired this call. -/
def updateLyrics (now : ℤ) (s : LyricState) : LyricState × List LyricEvent :=
  if s.isAudioPlaying = false ∨ s.lyricsContainer = false then (s, [])
  else
    let t := now - s.audioStartTime
    let stanzaHit := firstDue t s.currentStanzaIndex stanzaFirstTimes 0
    let s1 := match stanzaHit with
      | some i => createNewStanza i s
      | none => s
    let e1 : List LyricEvent := match stanzaHit with
      | some i => [LyricEvent.stanzaShown i]
      | none => []
    if 0 ≤ s1.currentStanzaIndex ∧ s1.stanzaContainer = true then
      match firstDue t s1.currentLineIndex (stanzaAt s1.currentStanzaIndex) 0 with
      | some i => (showNextLine i s1, e1 ++ [LyricEvent.lineShown i])
      | none => (s1, e1)
    else (s1, e1)

/-- src/audio.js play-button click handler (lines 142-215), lyric-state part:
a click while not playing starts (or restarts) playback, resetting the clock,
the lyric indices and the stanza container; a click while playing pauses. -/
def playButtonClick (now : ℤ) (s : LyricState) : LyricState :=
  if s.isAudioPlaying = false then
    { s with isAudioPlaying := true, audioStartTime := now,
             currentStanzaIndex := -1, currentLineIndex := -1,
             stanzaContainer := false }
  else
    { s with isAudioPlaying := false }

/-- Iterate `updateLyrics` over a list of frame timestamps. -/
def runLyrics (frames : List ℤ) (s : LyricState) : LyricState :=
  frames.foldl (fun st now => (updateLyrics now st).1) s

/-- The lyric state right after `setupLyricsDisplay`, before any playback. -/
def lyricSetupState : LyricState := ⟨false, 0, -1, -1, true, false⟩

/-! ## ExplosionChoreographer (src/audio.js lines 585-918)

Scene objects are modelled as records keyed by a stable identity `id`
(JS `Map` objects are keyed by object reference). The per-object animation
state written into `object.userData` becomes a record of `Option` fields
(a `delete` sets the field back to `none`). -/

structure XUserData where
  blowApartDistance : Option ℚ
  rotationDirection : Option Vec3
  orbitAngle : Option ℚ
  orbitRadius : Option ℚ
  orbitSpeed : Option ℚ
  orbitVertical : Option ℚ
deriving DecidableEq, Repr

/-- User data with none of the scatter animation fields present. -/
def emptyUserData : XUserData := ⟨none, none, none, none, none, none⟩

structure SceneObject where
  id : ℕ
  name : String
  parentName : Option String
  geometryType : Option String
  geometryCtorName : Option String
  isMesh : Bool
  isGroup : Bool
  position : Vec3
  rotation : Vec3
  userData : XUserData
deriving DecidableEq, Repr

def particleGeometryTypes : List String :=
  ["TetrahedronGeometry", "OctahedronGeometry",
   "DodecahedronGeometry", "IcosahedronGeometry"]

/-- src/audio.js `isAudioReactiveParticle` (lines 594-614): by name, by
parent name, or by one of the four particle geometry types (matching either
`geometry.type` or `geometry.constructor.name`). -/
def isAudioReactiveParticle (o : SceneObject) : Bool :=
  if o.name = "audioReactiveParticles" then true
  else if o.parentName = some "audioReactiveParticles" then true
  else if particleGeometryTypes.any (fun ty =>
      o.geometryType == some ty || o.geometryCtorName == some ty) then true
  else false

/-- The skip condition shared by the capture block and `prepareBlowApart`
(skybox, particle systems, fairies). -/
def isExcludedFromExplosion (o : SceneObject) : Bool :=
  o.name == "skybox" || o.name == "audioReactiveParticles" ||
  isAudioReactiveParticle o || o.parentName == some "fairiesGroup" ||
  o.name == "fairiesGroup"

/-- An object receives explosion bookkeeping iff it is a mesh or group and
is not excluded. -/
def eligibleForExplosion (o : SceneObject) : Bool :=
  (o.isMesh || o.isGroup) && !(isExcludedFromExplosion o)

structure Transform where
  position : Vec3
  rotation : Vec3
deriving DecidableEq, Repr

/-- The original-state capture traversal in `createExplosionEffect`
(src/audio.js lines 637-659). -/
def captureEntries (scene : List SceneObject) : List (ℕ × Transform) :=
  scene.filterMap (fun o =>
    if eligibleForExplosion o = true then some (o.id, (⟨o.position, o.rotation⟩ : Transform))
    else none)

structure ScatterData where
  direction : Vec3
  force : ℚ
  maxDistance : ℚ
  isTableOrChair : Bool
deriving DecidableEq, Repr

/-- `prepareBlowApart` over the scene traversal (src/audio.js lines 665-713).
The numeric payload per object (the normalized direction and the distance
need a square root, `maxDistance` draws `Math.random()`) is supplied by the
parameter `mkData`; the claims below depend only on which objects receive
entries, which is decided by the faithful `eligibleForExplosion` guard. -/
def prepareBlowApart (mkData : SceneObject → ScatterData)
    (scene : List SceneObject) : List (ℕ × ScatterData) :=
  scene.filterMap (fun o =>
    if eligibleForExplosion o = true then some (o.id, mkData o) else none)

/-- `createExplosionEffect` (src/audio.js lines 591-796), bookkeeping part:
capture the original states only when the map is still empty
(`originalObjectStates.size === 0`), then rebuild the blown-apart map. -/
def createExplosionEffect (mkData : SceneObject → ScatterData)
    (originalObjectStates : List (ℕ × Transform)) (scene : List SceneObject) :
    List (ℕ × Transform) × List (ℕ × ScatterData) :=
  let orig := if originalObjectStates.isEmpty = true
              then captureEntries scene else originalObjectStates
  (orig, prepareBlowApart mkData scene)

structure ReturnAnimState where
  isReturnAnimationActive : Bool
  returnAnimationStartTime : ℤ
  preventSecondExplosion : Bool
deriving DecidableEq, Repr

def returnAnimationDuration : ℚ := 20000

/-- `easeOutQuint` (src/audio.js line 837). -/
def easeOutQuint (t : ℚ) : ℚ := 1 - (1 - t)^5

/-- Closed form of the `normalize` while-loops inside `lerpAngle`
(src/audio.js lines 859-864): subtract (resp. add) 2π until the angle lies
in [-π, π]. -/
def normalizeAngle (a : ℚ) : ℚ :=
  if mathPI < a then a - 2 * mathPI * ⌈(a - mathPI) / (2 * mathPI)⌉
  else if a < -mathPI then a + 2 * mathPI * ⌈(-mathPI - a) / (2 * mathPI)⌉
  else a

/-- `lerpAngle` (src/audio.js lines 857-880): normalize both angles, take
the shorter signed difference, scale by `t`. -/
def lerpAngle (start stop t : ℚ) : ℚ :=
  let startAngle := normalizeAngle start
  let endAngle := normalizeAngle stop
  let diff0 := endAngle - startAngle
  let diff := if mathPI < |diff0| then
      (if 0 < diff0 then diff0 - 2 * mathPI else diff0 + 2 * mathPI)
    else diff0
  startAngle + diff * t

/-- The per-object body of the `blownApartObjects.forEach` interpolation loop
in `updateReturnAnimation` (src/audio.js lines 841-886): skip objects that
are not blown apart, detached, or without a recorded original state;
otherwise re-lerp position and rotation toward the original state. -/
def returnLerpObject (eased : ℚ) (blown : List (ℕ × ScatterData))
    (orig : List (ℕ × Transform)) (o : SceneObject) : SceneObject :=
  if (blown.lookup o.id).isSome = true then
    if o.parentName = none then o
    else
      match orig.lookup o.id with
      | none => o
      | some os =>
        { o with
          position := lerpV3 o.position os.position eased,
          rotation := ⟨lerpAngle o.rotation.x os.rotation.x eased,
                       lerpAngle o.rotation.y os.rotation.y eased,
                       lerpAngle o.rotation.z os.rotation.z eased⟩ }
  else o

/-- The per-object body of the completion loop in `updateReturnAnimation`
(src/audio.js lines 893-916): snap exactly onto the original state and
delete the six animation user-data fields. -/
def returnSnapObject (blown : List (ℕ × ScatterData))
    (orig : List (ℕ × Transform)) (o : SceneObject) : SceneObject :=
  if (blown.lookup o.id).isSome = true ∧ o.parentName ≠ none then
    match orig.lookup o.id with
    | none => o
    | some os =>
      { o with position := os.position, rotation := os.rotation,
               userData := emptyUserData }
  else o

/-- `updateReturnAnimation` (src/audio.js lines 830-918): while active,
re-lerp every blown-apart, still-attached object with a recorded original
state toward that state with the eased progress; when progress reaches 1,
deactivate, set the permanent suppression flag, and snap. The
`blownApartObjects` map is passed through untouched (the code never clears
it here). -/
def updateReturnAnimation (now : ℤ) (st : ReturnAnimState)
    (blown : List (ℕ × ScatterData)) (orig : List (ℕ × Transform))
    (objects : List SceneObject) :
    ReturnAnimState × List (ℕ × ScatterData) × List SceneObject :=
  if st.isReturnAnimationActive = false then (st, blown, objects)
  else
    let elapsed : ℚ := ((now - st.returnAnimationStartTime : ℤ) : ℚ)
    let progress := min 1 (elapsed / returnAnimationDuration)
    let eased := easeOutQuint progress
    let objects1 := objects.map (returnLerpObject eased blown orig)
    if 1 ≤ progress then
      ({ st with isReturnAnimationActive := false, preventSecondExplosion := true },
       blown, objects1.map (returnSnapObject blown orig))
    else (st, blown, objects1)

/-- A concrete mesh that was scattered: nonzero user data, displaced pose. -/
def scatteredFixtureObject : SceneObject :=
  ⟨1, "box", some "interiorGroup", none, none, true, false,
   ⟨5, 0, 0⟩, ⟨2, 0, 0⟩,
   ⟨some 2, some ⟨1, 1, 1⟩, some 0, some 5, some 1, some 0⟩⟩

/-- A concrete scatter-data payload. -/
def scatterFixtureData : ScatterData := ⟨⟨1, 0, 0⟩, 1, 4, false⟩

/-- A concrete particle mesh recognized by geometry type. -/
def particleFixtureObject : SceneObject :=
  ⟨7, "shard", some "interiorGroup", some "TetrahedronGeometry",
   some "TetrahedronGeometry", true, false, ⟨2, 0, 0⟩, ⟨0, 0, 0⟩, emptyUserData⟩

/-! ## AudioReactiveModulator: the global color pass
(src/audio.js lines 989-1128)

THREE.Color is embedded with its RGB channels and the exact HSL round trip
used by `applyColorModulation` (THREE.Color.getHSL / setHSL / hue2rgb).
Material and userData presence flags become booleans and `Option` fields. -/

structure Color where
  r : ℚ
  g : ℚ
  b : ℚ
deriving DecidableEq, Repr

structure HSL where
  h : ℚ
  s : ℚ
  l : ℚ
deriving DecidableEq, Repr

/-- THREE.Color.getHSL. -/
def getHSL (c : Color) : HSL :=
  let mx := max c.r (max c.g c.b)
  let mn := min c.r (min c.g c.b)
  let lightness := (mn + mx) / 2
  if mn = mx then ⟨0, 0, lightness⟩
  else
    let d := mx - mn
    let saturation :=
      if lightness ≤ 1/2 then d / (mx + mn) else d / (2 - mx - mn)
    let hue :=
      if mx = c.r then (c.g - c.b) / d + (if c.g < c.b then 6 else 0)
      else if mx = c.g then (c.b - c.r) / d + 2
      else (c.r - c.g) / d + 4
    ⟨hue / 6, saturation, lightness⟩

/-- The `hue2rgb` helper of THREE.Color.setHSL. -/
def hue2rgb (p q t : ℚ) : ℚ :=
  let t1 := if t < 0 then t + 1 else t
  let t2 := if 1 < t1 then t1 - 1 else t1
  if t2 < 1/6 then p + (q - p) * 6 * t2
  else if t2 < 1/2 then q
  else if t2 < 2/3 then p + (q - p) * 6 * (2/3 - t2)
  else p

/-- THREE.MathUtils.euclideanModulo(n, m), which equals n - m * floor(n / m)
for m > 0. -/
def euclideanModulo (n m : ℚ) : ℚ := n - m * ⌊n / m⌋

/-- THREE.MathUtils.clamp(value, min, max). -/
def clamp (x mn mx : ℚ) : ℚ := max mn (min mx x)

/-- THREE.Color.setHSL. -/
def setHSL (hsl : HSL) : Color :=
  let h := euclideanModulo hsl.h 1
  let s := clamp hsl.s 0 1
  let l := clamp hsl.l 0 1
  if s = 0 then ⟨l, l, l⟩
  else
    let p := if l ≤ 1/2 then l * (1 + s) else l + s - l * s
    let q := 2 * l - p
    ⟨hue2rgb q p (h + 1/3), hue2rgb q p h, hue2rgb q p (h - 1/3)⟩

structure MObject where
  isMesh : Bool
  hasMaterial : Bool
  name : String
  parentName : Option String
  isTableOrChair : Bool
  hasColor : Bool
  color : Color
  hasUniformColor : Bool
  uniformColor : Color
  hasEmissive : Bool
  emissive : Color
  transparent : Bool
  opacity : ℚ
  initialColor : Option Color
  initialEmissive : Option Color
  initialOpacity : Option ℚ
  initialUniformColor : Option Color
deriving DecidableEq, Repr

/-- src/audio.js `applyColorModulation` (lines 1114-1128): skip without a
stored initial color; scale the channels by the band modulations, then
re-encode through HSL with the lightness pulsed and clamped to 1. -/
def applyColorModulation (o : MObject)
    (bassModulation midModulation highModulation pulse : ℚ) : MObject :=
  match o.initialColor with
  | none => o
  | some c0 =>
    let c1 : Color :=
      ⟨c0.r * bassModulation, c0.g * midModulation, c0.b * highModulation⟩
    let hsl := getHSL c1
    let l2 := min 1 (hsl.l * pulse)
    { o with color := setHSL ⟨hsl.h, hsl.s, l2⟩ }

/-- src/audio.js `storeInitialColors` (lines 1086-1111), per object. -/
def storeInitialColorsObject (o : MObject) : MObject :=
  if o.isMesh = true ∧ o.hasMaterial = true then
    let o1 := if o.hasColor = true ∧ o.initialColor = none
              then { o with initialColor := some o.color } else o
    let o2 := if o1.hasEmissive = true ∧ o1.initialEmissive = none
              then { o1 with initialEmissive := some o1.emissive } else o1
    let o3 := if o2.transparent = true
              then { o2 with initialOpacity := some o2.opacity } else o2
    if o3.hasUniformColor = true ∧ o3.initialUniformColor = none
    then { o3 with initialUniformColor := some o3.uniformColor } else o3
  else o

/-- The material-color statement group of the `scene.traverse` body in
`applyGlobalAudioEffect` (direct colors through `applyColorModulation`,
shader uniform colors from `userData.initialColor`). -/
def modColorStage (bassModulation midModulation highModulation pulse : ℚ)
    (o : MObject) : MObject :=
  if o.hasColor = true then
    applyColorModulation o bassModulation midModulation highModulation pulse
  else if o.hasUniformColor = true then
    match o.initialColor with
    | some c0 =>
      { o with uniformColor :=
          ⟨c0.r * bassModulation, c0.g * midModulation, c0.b * highModulation⟩ }
    | none => o
  else o

/-- The emissive statement group ("Also modify emissive colors"). -/
def modEmissiveStage (bassModulation midModulation highModulation pulse : ℚ)
    (o : MObject) : MObject :=
  if o.hasEmissive = true then
    match o.initialEmissive with
    | some e0 =>
      { o with emissive :=
          ⟨e0.r * bassModulation * pulse, e0.g * midModulation * pulse,
           e0.b * highModulation * pulse⟩ }
    | none => o
  else o

/-- The opacity statement group ("Modify opacity for extra effect"); the JS
truthiness guard on `userData.initialOpacity` rejects both a missing and a
zero stored opacity. -/
def modOpacityStage (avgIntensity : ℚ) (o : MObject) : MObject :=
  if o.transparent = true ∧ o.initialOpacity.getD 0 ≠ 0 then
    { o with opacity := o.initialOpacity.getD 0 * (9/10 + avgIntensity * (1/5)) }
  else o

/-- The per-object body of the `scene.traverse` in `applyGlobalAudioEffect`
(src/audio.js lines 1036-1082): skip fairies, particles and furniture, then
run the three statement groups on mesh objects with a material. -/
def applyGlobalAudioEffectObject
    (bassModulation midModulation highModulation pulse avgIntensity : ℚ)
    (o : MObject) : MObject :=
  if o.parentName = some "fairiesGroup" then o
  else if o.parentName = some "audioReactiveParticles" then o
  else if o.name = "audioReactiveParticles" then o
  else if o.isTableOrChair = true then o
  else if o.isMesh = true ∧ o.hasMaterial = true then
    modOpacityStage avgIntensity
      (modEmissiveStage bassModulation midModulation highModulation pulse
        (modColorStage bassModulation midModulation highModulation pulse o))
  else o

structure ModScene where
  initialColorsStored : Bool
  objects : List MObject
deriving DecidableEq, Repr

/-- src/audio.js `applyGlobalAudioEffect` (lines 989-1082): store the
baselines once per session, compute the three band modulations
(1 + band * 0.3) and the pulse (1 + avgIntensity * 0.2), and run the
per-object pass over the scene. -/
def applyGlobalAudioEffect (scene : ModScene) (bass mid high : ℚ) : ModScene :=
  let scene1 :=
    if scene.initialColorsStored = false
    then ⟨true, scene.objects.map storeInitialColorsObject⟩
    else scene
  let bassModulation := 1 + bass * (3/10)
  let midModulation := 1 + mid * (3/10)
  let highModulation := 1 + high * (3/10)
  let avgIntensity := (bass + mid + high) / 3
  let pulse := 1 + avgIntensity * (1/5)
  ⟨scene1.initialColorsStored,
   scene1.objects.map (applyGlobalAudioEffectObject bassModulation midModulation
     highModulation pulse avgIntensity)⟩

/-- The hue computed by `getHSL` in the non-grayscale branch, split out for
the round-trip proof. -/
def hueOf (r g b : ℚ) : ℚ :=
  if max r (max g b) = r then
    (g - b) / (max r (max g b) - min r (min g b)) + (if g < b then 6 else 0)
  else if max r (max g b) = g then
    (b - r) / (max r (max g b) - min r (min g b)) + 2
  else (r - g) / (max r (max g b) - min r (min g b)) + 4

/-- The lightness computed by `getHSL`. -/
def lightnessOf (r g b : ℚ) : ℚ :=
  (min r (min g b) + max r (max g b)) / 2

/-- The saturation computed by `getHSL` in the non-grayscale branch. -/
def saturationOf (r g b : ℚ) : ℚ :=
  if lightnessOf r g b ≤ 1/2 then
    (max r (max g b) - min r (min g b)) / (max r (max g b) + min r (min g b))
  else
    (max r (max g b) - min r (min g b)) / (2 - max r (max g b) - min r (min g b))

/-- A concrete transparent mesh with stored baselines. -/
def transparentFixtureObject : MObject :=
  ⟨true, true, "window", some "interiorGroup", false,
   true, ⟨1, 0, 0⟩, false, ⟨0, 0, 0⟩, false, ⟨0, 0, 0⟩,
   true, 1, some ⟨1, 0, 0⟩, none, some 1, none⟩

/-! ## Theorems -/

/-- C6: `getAverageFrequency` returns a value in [0,1] whenever the range
clamped to the buffer length is non-degenerate and all bins are at most 255;
it returns exactly 0 on an uninitialized (empty) buffer regardless of the
arguments, and exactly 0 whenever the clamped range is empty. Being a total
function, it never throws. -/
theorem claim6_band_energy_bounds :
    (∀ start stop : ℕ, getAverageFrequency [] start stop = 0) ∧
    (∀ (audioData : List ℕ) (start stop : ℕ),
      (min stop audioData.length : ℤ) - (start : ℤ) ≤ 0 →
      getAverageFrequency audioData start stop = 0) ∧
    (∀ (audioData : List ℕ) (start stop : ℕ),
      (∀ v ∈ audioData, v ≤ 255) →
      0 ≤ getAverageFrequency audioData start stop ∧
      getAverageFrequency audioData start stop ≤ 1) := by
  refine ⟨?_, ?_, ?_⟩
  · intro start stop
    simp [getAverageFrequency]
  · intro audioData start stop h
    simp only [getAverageFrequency]
    rw [if_pos h]
  · intro audioData start stop hbins
    by_cases hlen : (min stop audioData.length : ℤ) - (start : ℤ) ≤ 0
    · simp only [getAverageFrequency]
      rw [if_pos hlen]
      norm_num
    · push_neg at hlen
      simp only [getAverageFrequency]
      rw [if_neg (not_le.mpr hlen)]
      have hstartlt : start < min stop audioData.length := by
        have := sub_pos.mp hlen
        exact_mod_cast this
      have hcard : (Finset.Ico start (min stop audioData.length)).card
          = min stop audioData.length - start := Nat.card_Ico _ _
      have hlenpos : (0 : ℚ) < (((min stop audioData.length : ℤ) - (start : ℤ) : ℤ) : ℚ) := by
        exact_mod_cast hlen
      have hsum_nonneg : (0 : ℚ) ≤ ∑ i in Finset.Ico start (min stop audioData.length),
          ((audioData.getD i 0 : ℕ) : ℚ) := by
        apply Finset.sum_nonneg
        intro i _
        positivity
      have hsum_le : (∑ i in Finset.Ico start (min stop audioData.length),
          ((audioData.getD i 0 : ℕ) : ℚ))
          ≤ (Finset.Ico start (min stop audioData.length)).card * 255 := by
        calc (∑ i in Finset.Ico start (min stop audioData.length),
                ((audioData.getD i 0 : ℕ) : ℚ))
            ≤ ∑ _i in Finset.Ico start (min stop audioData.length), (255 : ℚ) := by
              apply Finset.sum_le_sum
              intro i hi
              have hi2 : i < audioData.length := by
                have := (Finset.mem_Ico.mp hi).2
                omega
              have : audioData.getD i 0 ∈ audioData := by
                rw [List.getD_eq_getElem audioData 0 hi2]
                exact audioData.getElem_mem hi2
              exact_mod_cast hbins _ this
          _ = (Finset.Ico start (min stop audioData.length)).card * 255 := by
              rw [Finset.sum_const]
              ring
      constructor
      · apply div_nonneg _ (by norm_num : (0:ℚ) ≤ 255)
        exact div_nonneg hsum_nonneg (le_of_lt hlenpos)
      · rw [div_le_one (by norm_num : (0:ℚ) < 255)]
        rw [div_le_iff₀ hlenpos]
        calc (∑ i in Finset.Ico start (min stop audioData.length),
                ((audioData.getD i 0 : ℕ) : ℚ))
            ≤ (Finset.Ico start (min stop audioData.length)).card * 255 := hsum_le
          _ = (((min stop audioData.length : ℤ) - (start : ℤ) : ℤ) : ℚ) * 255 := by
              rw [hcard]
              have hz : ((min stop audioData.length - start : ℕ) : ℤ)
                  = (min stop audioData.length : ℤ) - (start : ℤ) := by omega
              have : ((min stop audioData.length - start : ℕ) : ℚ)
                  = (((min stop audioData.length : ℤ) - (start : ℤ) : ℤ) : ℚ) := by
                exact_mod_cast hz
              rw [← this]
          _ = 255 * (((min stop audioData.length : ℤ) - (start : ℤ) : ℤ) : ℚ) := by ring

/-- C6 witness: concrete evaluation on a 4-bin buffer with the bass band. -/
theorem claim6_band_energy_bounds_witness :
    getAverageFrequency [] 1 4 = 0 ∧
    getAverageFrequency [10, 20, 255] 5 9 = 0 ∧
    (0 ≤ getAverageFrequency [10, 20, 255, 0] 1 4 ∧
     getAverageFrequency [10, 20, 255, 0] 1 4 ≤ 1) := by
  refine ⟨claim6_band_energy_bounds.1 1 4,
          claim6_band_energy_bounds.2.1 [10, 20, 255] 5 9 (by decide),
          claim6_band_energy_bounds.2.2 [10, 20, 255, 0] 1 4 (by decide)⟩

theorem fireOneShotCues_step_bound (k : CueKind) (now : ℤ) (s : AudioTriggerState) :
    countCue k (fireOneShotCues now s).2 + (if cueFlag k s = true then 1 else 0)
      ≤ (if cueFlag k (fireOneShotCues now s).1 = true then 1 else 0) := by
  cases k <;>
    simp only [fireOneShotCues, fireSceneTransition, fireExplosion, fireReturn,
      countCue, cueFlag] <;>
    split_ifs <;>
    simp_all [List.filter]

theorem runCues_count_bound (k : CueKind) :
    ∀ (frames : List ℤ) (s : AudioTriggerState),
    countCue k (runCues frames s).2 + (if cueFlag k s = true then 1 else 0)
      ≤ (if cueFlag k (runCues frames s).1 = true then 1 else 0)
  | [], s => by simp [runCues, countCue]
  | now :: rest, s => by
    have h1 := fireOneShotCues_step_bound k now s
    have h2 := runCues_count_bound k rest (fireOneShotCues now s).1
    simp only [runCues, countCue] at h1 h2 ⊢
    rw [List.filter_append, List.length_append]
    split_ifs at h1 h2 ⊢ <;> omega

/-- C1: each one-shot cue (scene transition, explosion, return) fires at most
once between a playback start and the next playback start; once a cue's latch
flag is set, a later frame whose elapsed time still satisfies the time
condition fires nothing for that cue and leaves the flag set (a no-op, never
an error); and the play-button start branch resets the playback clock
together with all four trigger flags. -/
theorem claim1_one_shot_cue_discipline :
    (∀ (now : ℤ) (s : AudioTriggerState),
      (playButtonStart now s).sceneTransitionTriggered = false ∧
      (playButtonStart now s).explosionTriggered = false ∧
      (playButtonStart now s).returnTriggered = false ∧
      (playButtonStart now s).preventSecondExplosion = false ∧
      now - (playButtonStart now s).audioStartTime = 0) ∧
    (∀ (k : CueKind) (now : ℤ) (s : AudioTriggerState), cueFlag k s = true →
      countCue k (fireOneShotCues now s).2 = 0 ∧
      cueFlag k (fireOneShotCues now s).1 = true) ∧
    (∀ (k : CueKind) (frames : List ℤ) (now : ℤ) (s : AudioTriggerState),
      countCue k (runCues frames (playButtonStart now s)).2 ≤ 1) := by
  refine ⟨?_, ?_, ?_⟩
  · intro now s
    refine ⟨rfl, rfl, rfl, rfl, by simp [playButtonStart]⟩
  · intro k now s h
    have hb := fireOneShotCues_step_bound k now s
    rw [if_pos h] at hb
    by_cases hc : cueFlag k (fireOneShotCues now s).1 = true
    · rw [if_pos hc] at hb
      exact ⟨by omega, hc⟩
    · rw [if_neg hc] at hb
      omega
  · intro k frames now s
    have hb := runCues_count_bound k frames (playButtonStart now s)
    have hflag : cueFlag k (playButtonStart now s) = false := by
      cases k <;> rfl
    rw [hflag] at hb
    split_ifs at hb <;> omega

/-- C1 witness: with all latch flags set, a frame at 70000 ms (past every cue
time) fires nothing; from a fresh play at 0 ms, three frames past the
explosion time fire the explosion exactly once; and play resets the flags. -/
theorem claim1_one_shot_cue_discipline_witness :
    countCue CueKind.explosion
      (fireOneShotCues 70000
        ⟨true, true, true, true, true, 0, true, "exterior", true⟩).2 = 0 ∧
    countCue CueKind.explosion
      (runCues [66000, 66016, 140000]
        (playButtonStart 0
          ⟨true, true, true, true, true, 0, true, "exterior", true⟩)).2 ≤ 1 ∧
    (playButtonStart 5
      ⟨true, true, true, true, true, 0, true, "exterior", true⟩).explosionTriggered
      = false := by
  refine ⟨(claim1_one_shot_cue_discipline.2.1 CueKind.explosion 70000
            ⟨true, true, true, true, true, 0, true, "exterior", true⟩ rfl).1,
          claim1_one_shot_cue_discipline.2.2 CueKind.explosion [66000, 66016, 140000] 0
            ⟨true, true, true, true, true, 0, true, "exterior", true⟩,
          (claim1_one_shot_cue_discipline.1 5
            ⟨true, true, true, true, true, 0, true, "exterior", true⟩).2.1⟩

/-- C7: at most one scene transition is in flight at a time. A request
arriving while a transition is active, or naming the current scene, is
ignored; when an accepted transition reaches progress 1 the update sets
`currentScene` to the requested target, clamps progress to 1, and clears the
in-transition flag (and the pending target). -/
theorem claim7_single_transition :
    (∀ (name : String) (s : TransitionState),
      s.isTransitioning = true → transitionToScene name s = s) ∧
    (∀ (name : String) (s : TransitionState),
      some name = s.currentScene → transitionToScene name s = s) ∧
    (∀ (dt : ℚ) (s : TransitionState) (t : String),
      s.isTransitioning = true → s.nextScene = some t →
      (updateSceneTransition dt s).isTransitioning = false →
      (updateSceneTransition dt s).currentScene = some t ∧
      (updateSceneTransition dt s).transitionProgress = 1 ∧
      (updateSceneTransition dt s).nextScene = none) := by
  refine ⟨?_, ?_, ?_⟩
  · intro name s h
    simp [transitionToScene, h]
  · intro name s h
    simp [transitionToScene, h]
  · intro dt s t htr hnext
    simp only [updateSceneTransition, htr]
    split_ifs <;> simp_all

/-- C7 witness: a concrete in-flight transition at progress 9/10 with
dt = 1 completes and flips the scene; requests during flight and requests
naming the current scene are ignored on a concrete state. -/
theorem claim7_single_transition_witness :
    transitionToScene "exterior"
      ⟨some "exterior", some "interior", 9/10, true, false, 1, 0, ⟨0,0,0⟩, ⟨0,0,0⟩⟩
      = ⟨some "exterior", some "interior", 9/10, true, false, 1, 0, ⟨0,0,0⟩, ⟨0,0,0⟩⟩ ∧
    (updateSceneTransition 1
      ⟨some "exterior", some "interior", 9/10, true, false, 1, 0, ⟨0,0,0⟩, ⟨0,0,0⟩⟩).currentScene
      = some "interior" := by
  refine ⟨claim7_single_transition.1 "exterior"
            ⟨some "exterior", some "interior", 9/10, true, false, 1, 0, ⟨0,0,0⟩, ⟨0,0,0⟩⟩ rfl,
          (claim7_single_transition.2.2 1
            ⟨some "exterior", some "interior", 9/10, true, false, 1, 0, ⟨0,0,0⟩, ⟨0,0,0⟩⟩
            "interior" rfl rfl (by norm_num [updateSceneTransition, TRANSITION_DURATION])).1⟩

/-- C9: the camera interpolation endpoints are the fixed exterior and
interior poses, not poses derived from the transition direction: every
completed transition leaves the camera at the interior pose, and in
particular a spacebar toggle from the interior sets `currentScene` to
exterior while the camera ends at the interior pose. -/
theorem claim9_camera_endpoints_fixed :
    (∀ (dt : ℚ) (s : TransitionState) (t : String),
      s.isTransitioning = true → s.nextScene = some t →
      (updateSceneTransition dt s).isTransitioning = false →
      (updateSceneTransition dt s).cameraPosition = cameraPositionsInterior.1 ∧
      (updateSceneTransition dt s).controlsTarget = cameraPositionsInterior.2) ∧
    ((updateSceneTransition 4 (updateSceneTransition 4
        (spacebarToggle interiorRestState))).currentScene = some "exterior" ∧
     (updateSceneTransition 4 (updateSceneTransition 4
        (spacebarToggle interiorRestState))).cameraPosition = cameraPositionsInterior.1 ∧
     (updateSceneTransition 4 (updateSceneTransition 4
        (spacebarToggle interiorRestState))).isTransitioning = false) := by
  constructor
  · intro dt s t htr hnext
    simp only [updateSceneTransition, htr]
    split_ifs <;>
      simp_all [smoothstep, lerpVectors, cameraPositionsExterior,
        cameraPositionsInterior] <;>
      norm_num
  · have h1 : spacebarToggle interiorRestState =
        ⟨some "interior", some "exterior", 0, true, true, 0, -mathPI/2,
         ⟨0, 2, -3⟩, ⟨0, 2, -7⟩⟩ := by
      simp [spacebarToggle, interiorRestState, transitionToScene]
    have h2 : updateSceneTransition 4
        ⟨some "interior", some "exterior", 0, true, true, 0, -mathPI/2,
         ⟨0, 2, -3⟩, ⟨0, 2, -7⟩⟩ =
        ⟨some "interior", some "exterior", 4/5, true, false, 1, -mathPI/2,
         ⟨0, 2, -11/125⟩, ⟨0, 2, -784/125⟩⟩ := by
      norm_num [updateSceneTransition, TRANSITION_DURATION, doorAnimationDuration,
        smoothstep, mathLerp, lerpVectors, cameraPositionsExterior,
        cameraPositionsInterior, doorRotationStart, doorRotationEnd]
    have h3 : updateSceneTransition 4
        ⟨some "interior", some "exterior", 4/5, true, false, 1, -mathPI/2,
         ⟨0, 2, -11/125⟩, ⟨0, 2, -784/125⟩⟩ =
        ⟨some "exterior", none, 1, false, false, 1, -mathPI/2,
         ⟨0, 2, -3⟩, ⟨0, 2, -7⟩⟩ := by
      norm_num [updateSceneTransition, TRANSITION_DURATION, doorAnimationDuration,
        smoothstep, mathLerp, lerpVectors, cameraPositionsExterior,
        cameraPositionsInterior, doorRotationStart, doorRotationEnd]
    rw [h1, h2, h3]
    exact ⟨rfl, rfl, rfl⟩

/-- C9 witness: a concrete in-flight transition toward the exterior
completes with the camera at the interior pose. -/
theorem claim9_camera_endpoints_fixed_witness :
    (updateSceneTransition 1
      ⟨some "interior", some "exterior", 9/10, true, false, 1, 0, ⟨0,0,0⟩, ⟨0,0,0⟩⟩).cameraPosition
      = cameraPositionsInterior.1 :=
  (claim9_camera_endpoints_fixed.1 1
    ⟨some "interior", some "exterior", 9/10, true, false, 1, 0, ⟨0,0,0⟩, ⟨0,0,0⟩⟩
    "exterior" rfl rfl (by norm_num [updateSceneTransition, TRANSITION_DURATION])).1

theorem firstDue_some_gt (t cur : ℤ) :
    ∀ (l : List ℤ) (idx i : ℕ), firstDue t cur l idx = some i → cur < (i : ℤ)
  | [], idx, i => by simp [firstDue]
  | tm :: rest, idx, i => by
    simp only [firstDue]
    split_ifs with h
    · simp only [Option.some.injEq]
      rintro rfl
      exact h.2
    · exact firstDue_some_gt t cur rest (idx + 1) i

theorem updateLyrics_stanza_mono (now : ℤ) (s : LyricState) :
    s.currentStanzaIndex ≤ (updateLyrics now s).1.currentStanzaIndex := by
  by_cases hg : (s.isAudioPlaying = false ∨ s.lyricsContainer = false)
  · simp [updateLyrics, hg]
  · rcases hs : firstDue (now - s.audioStartTime) s.currentStanzaIndex
        stanzaFirstTimes 0 with _ | i
    · rcases hl : firstDue (now - s.audioStartTime) s.currentLineIndex
          (stanzaAt s.currentStanzaIndex) 0 with _ | j
      · simp [updateLyrics, hg, hs, hl]
      · simp [updateLyrics, hg, hs, hl, showNextLine]
        split_ifs <;> simp
    · have hgt := firstDue_some_gt _ _ _ _ _ hs
      rcases hl : firstDue (now - s.audioStartTime) (-1 : ℤ)
          (stanzaAt ((i : ℕ) : ℤ)) 0 with _ | j
      · simp [updateLyrics, hg, hs, createNewStanza, hl]
        omega
      · simp [updateLyrics, hg, hs, createNewStanza, hl, showNextLine]
        omega

theorem runLyrics_stanza_mono :
    ∀ (frames : List ℤ) (s : LyricState),
      s.currentStanzaIndex ≤ (runLyrics frames s).currentStanzaIndex
  | [], s => le_refl _
  | now :: rest, s => by
    have h1 := updateLyrics_stanza_mono now s
    have h2 := runLyrics_stanza_mono rest (updateLyrics now s).1
    simp only [runLyrics, List.foldl] at h2 ⊢
    omega

/-- C8: within a session the stanza index is monotonically non-decreasing,
per update call and along any run of update calls; the line index is
monotonically non-decreasing whenever the stanza did not change; and a line
cue fired while the stanza is unchanged always has an index strictly beyond
the previously shown line (an earlier line is never re-triggered). -/
theorem claim8_lyric_index_monotonicity :
    (∀ (now : ℤ) (s : LyricState),
      s.currentStanzaIndex ≤ (updateLyrics now s).1.currentStanzaIndex) ∧
    (∀ (now : ℤ) (s : LyricState),
      (updateLyrics now s).1.currentStanzaIndex = s.currentStanzaIndex →
      s.currentLineIndex ≤ (updateLyrics now s).1.currentLineIndex) ∧
    (∀ (now : ℤ) (s : LyricState) (i : ℕ),
      LyricEvent.lineShown i ∈ (updateLyrics now s).2 →
      (updateLyrics now s).1.currentStanzaIndex = s.currentStanzaIndex →
      s.currentLineIndex < (i : ℤ)) ∧
    (∀ (frames : List ℤ) (s : LyricState),
      s.currentStanzaIndex ≤ (runLyrics frames s).currentStanzaIndex) := by
  refine ⟨updateLyrics_stanza_mono, ?_, ?_, runLyrics_stanza_mono⟩
  · intro now s hsame
    by_cases hg : (s.isAudioPlaying = false ∨ s.lyricsContainer = false)
    · simp [updateLyrics, hg]
    · rcases hs : firstDue (now - s.audioStartTime) s.currentStanzaIndex
          stanzaFirstTimes 0 with _ | i
      · rcases hl : firstDue (now - s.audioStartTime) s.currentLineIndex
            (stanzaAt s.currentStanzaIndex) 0 with _ | j
        · simp [updateLyrics, hg, hs, hl]
        · have hgt := firstDue_some_gt _ _ _ _ _ hl
          simp [updateLyrics, hg, hs, hl, showNextLine]
          split_ifs <;> simp <;> omega
      · have hgt := firstDue_some_gt _ _ _ _ _ hs
        exfalso
        rcases hl : firstDue (now - s.audioStartTime) (-1 : ℤ)
            (stanzaAt ((i : ℕ) : ℤ)) 0 with _ | j
        · simp [updateLyrics, hg, hs, createNewStanza, hl] at hsame
          omega
        · simp [updateLyrics, hg, hs, createNewStanza, hl, showNextLine] at hsame
          omega
  · intro now s i hmem hsame
    by_cases hg : (s.isAudioPlaying = false ∨ s.lyricsContainer = false)
    · simp [updateLyrics, hg] at hmem
    · rcases hs : firstDue (now - s.audioStartTime) s.currentStanzaIndex
          stanzaFirstTimes 0 with _ | j
      · rcases hl : firstDue (now - s.audioStartTime) s.currentLineIndex
            (stanzaAt s.currentStanzaIndex) 0 with _ | m
        · simp [updateLyrics, hg, hs, hl] at hmem
        · have hgt := firstDue_some_gt _ _ _ _ _ hl
          simp [updateLyrics, hg, hs, hl] at hmem
          split_ifs at hmem <;> simp at hmem <;> omega
      · have hgt := firstDue_some_gt _ _ _ _ _ hs
        exfalso
        rcases hl : firstDue (now - s.audioStartTime) (-1 : ℤ)
            (stanzaAt ((j : ℕ) : ℤ)) 0 with _ | m
        · simp [updateLyrics, hg, hs, createNewStanza, hl] at hsame
          omega
        · simp [updateLyrics, hg, hs, createNewStanza, hl, showNextLine] at hsame
          omega

/-- C8 witness: a concrete run whose frame at 27000 ms shows stanza 0
line 0 and only moves indices forward. -/
theorem claim8_lyric_index_monotonicity_witness :
    (playButtonClick 0 lyricSetupState).currentStanzaIndex ≤
      (updateLyrics 27000 (playButtonClick 0 lyricSetupState)).1.currentStanzaIndex ∧
    (playButtonClick 0 lyricSetupState).currentStanzaIndex ≤
      (runLyrics [27000, 33000] (playButtonClick 0 lyricSetupState)).currentStanzaIndex :=
  ⟨claim8_lyric_index_monotonicity.1 27000 (playButtonClick 0 lyricSetupState),
   claim8_lyric_index_monotonicity.2.2.2 [27000, 33000] (playButtonClick 0 lyricSetupState)⟩

/-- C3 (refuting the claim on the code): the play handler does not
distinguish resume from restart. Pausing at 30000 ms after stanza 0 line 0
has shown, then resuming at 35000 ms, resets the cue clock and the lyric
indices, so the frame at 61500 ms (elapsed 26500 on the restarted clock,
while the audio itself resumes from the 30000 ms pause point) re-fires
stanza 0 line 0: an already-shown line is replayed after resume. -/
theorem claim3_resume_replays_shown_line :
    (updateLyrics 27000 (playButtonClick 0 lyricSetupState)).2
      = [LyricEvent.stanzaShown 0, LyricEvent.lineShown 0] ∧
    (updateLyrics 61500
      (playButtonClick 35000
        (playButtonClick 30000
          (updateLyrics 27000 (playButtonClick 0 lyricSetupState)).1))).2
      = [LyricEvent.stanzaShown 0, LyricEvent.lineShown 0] := by
  constructor <;> decide

theorem captureEntries_mem_of_eligible (o : SceneObject) (scene : List SceneObject)
    (hmem : o ∈ scene) (he : eligibleForExplosion o = true) :
    (o.id, (⟨o.position, o.rotation⟩ : Transform)) ∈ captureEntries scene := by
  rw [captureEntries, List.mem_filterMap]
  exact ⟨o, hmem, by simp [he]⟩

/-- C5: the originalTransform capture is idempotent within a session: the
capture runs only while the map is empty, so a second explosion trigger with
no intervening session reset leaves the entries recorded at the first
explosion untouched (regardless of how the scene has moved since). -/
theorem claim5_original_capture_idempotent
    (mkData mkData2 : SceneObject → ScatterData)
    (scene scene2 : List SceneObject)
    (h : ∃ o ∈ scene, eligibleForExplosion o = true) :
    (createExplosionEffect mkData [] scene).1 ≠ [] ∧
    (createExplosionEffect mkData2 (createExplosionEffect mkData [] scene).1 scene2).1
      = (createExplosionEffect mkData [] scene).1 := by
  obtain ⟨o, hmem, he⟩ := h
  have h1 : (createExplosionEffect mkData [] scene).1 = captureEntries scene := by
    simp [createExplosionEffect]
  have hne : captureEntries scene ≠ [] := by
    intro hemp
    have hm := captureEntries_mem_of_eligible o scene hmem he
    rw [hemp] at hm
    simp at hm
  refine ⟨by rw [h1]; exact hne, ?_⟩
  rw [h1]
  simp only [createExplosionEffect]
  rw [if_neg (by simpa [List.isEmpty_iff] using hne)]

/-- C5 witness: a one-object scene; the second explosion with a different
payload function over an empty scene keeps the first capture. -/
theorem claim5_original_capture_idempotent_witness :
    (createExplosionEffect (fun _ => scatterFixtureData) [] [scatteredFixtureObject]).1 ≠ [] ∧
    (createExplosionEffect (fun o => ⟨o.position, 2, 5, true⟩)
        (createExplosionEffect (fun _ => scatterFixtureData) [] [scatteredFixtureObject]).1
        []).1
      = (createExplosionEffect (fun _ => scatterFixtureData) [] [scatteredFixtureObject]).1 :=
  claim5_original_capture_idempotent (fun _ => scatterFixtureData)
    (fun o => ⟨o.position, 2, 5, true⟩) [scatteredFixtureObject] []
    ⟨scatteredFixtureObject, List.mem_singleton.mpr rfl, by decide⟩

theorem explosionTraverse_lookup_none {α : Type} (f : SceneObject → α)
    (o : SceneObject) (ho : eligibleForExplosion o = false) :
    ∀ scene : List SceneObject, (∀ o2 ∈ scene, o2.id = o.id → o2 = o) →
      (scene.filterMap (fun ob =>
        if eligibleForExplosion ob = true then some (ob.id, f ob) else none)).lookup o.id
        = none
  | [], _ => by simp
  | o2 :: rest, h => by
    have hrest := explosionTraverse_lookup_none f o ho rest
      (fun o3 h3 hid => h o3 (List.mem_cons_of_mem _ h3) hid)
    by_cases he : eligibleForExplosion o2 = true
    · have hne : o.id ≠ o2.id := by
        intro hid
        have heq := h o2 (List.mem_cons_self _ _) hid.symm
        rw [heq, ho] at he
        exact absurd he (by simp)
      simp [List.filterMap_cons, he, List.lookup, hrest,
        beq_eq_false_iff_ne.mpr hne]
    · simp [List.filterMap_cons, he, hrest]

/-- C10: a mesh whose geometry type (or geometry constructor name) is one of
TetrahedronGeometry, OctahedronGeometry, DodecahedronGeometry,
IcosahedronGeometry is classified as an audio-reactive particle, hence
ineligible for explosion bookkeeping: it contributes an entry neither to the
originalTransform capture nor to the blown-apart preparation, regardless of
its name or parent. -/
theorem claim10_geometry_particle_exclusion (o : SceneObject) (ty : String)
    (hty : ty ∈ particleGeometryTypes)
    (hg : o.geometryType = some ty ∨ o.geometryCtorName = some ty) :
    isAudioReactiveParticle o = true ∧
    eligibleForExplosion o = false ∧
    (∀ (scene : List SceneObject) (mkData : SceneObject → ScatterData),
      (∀ o2 ∈ scene, o2.id = o.id → o2 = o) →
      (captureEntries scene).lookup o.id = none ∧
      (prepareBlowApart mkData scene).lookup o.id = none) := by
  have hp : isAudioReactiveParticle o = true := by
    unfold isAudioReactiveParticle
    split_ifs with h1 h2 h3
    · rfl
    · rfl
    · rfl
    · exfalso
      apply h3
      rw [List.any_eq_true]
      refine ⟨ty, hty, ?_⟩
      rcases hg with hg | hg <;> simp [hg]
  have hex : eligibleForExplosion o = false := by
    simp [eligibleForExplosion, isExcludedFromExplosion, hp]
  refine ⟨hp, hex, ?_⟩
  intro scene mkData huniq
  exact ⟨explosionTraverse_lookup_none (fun ob => (⟨ob.position, ob.rotation⟩ : Transform))
           o hex scene huniq,
         explosionTraverse_lookup_none mkData o hex scene huniq⟩

/-- C10 witness: a concrete tetrahedron shard in a two-object scene gets no
capture entry and no scatter entry. -/
theorem claim10_geometry_particle_exclusion_witness :
    isAudioReactiveParticle particleFixtureObject = true ∧
    (captureEntries [particleFixtureObject, scatteredFixtureObject]).lookup
        particleFixtureObject.id = none ∧
    (prepareBlowApart (fun _ => scatterFixtureData)
        [particleFixtureObject, scatteredFixtureObject]).lookup
        particleFixtureObject.id = none := by
  have h := claim10_geometry_particle_exclusion particleFixtureObject
    "TetrahedronGeometry" (by decide) (Or.inl rfl)
  exact ⟨h.1,
         (h.2.2 [particleFixtureObject, scatteredFixtureObject]
           (fun _ => scatterFixtureData) (by decide)).1,
         (h.2.2 [particleFixtureObject, scatteredFixtureObject]
           (fun _ => scatterFixtureData) (by decide)).2⟩

/-- C2 (amended): when the return animation completes (`t ≥ 1`), the update
deactivates the animation, sets the permanent suppression flag, snaps every
blown-apart object that is still attached and has a recorded original state
exactly onto that state (zero residual offset), and deletes the six
per-object animation user-data fields; the `blownApartObjects` map itself is
passed through unchanged. -/
theorem claim2_return_completion_snap (now : ℤ) (st : ReturnAnimState)
    (blown : List (ℕ × ScatterData)) (orig : List (ℕ × Transform))
    (objects : List SceneObject)
    (hact : st.isReturnAnimationActive = true)
    (hdone : returnAnimationDuration ≤ ((now - st.returnAnimationStartTime : ℤ) : ℚ)) :
    (updateReturnAnimation now st blown orig objects).1.isReturnAnimationActive = false ∧
    (updateReturnAnimation now st blown orig objects).1.preventSecondExplosion = true ∧
    (updateReturnAnimation now st blown orig objects).2.1 = blown ∧
    (∀ o ∈ (updateReturnAnimation now st blown orig objects).2.2, ∀ os,
      (blown.lookup o.id).isSome = true → orig.lookup o.id = some os →
      o.parentName ≠ none →
      o.position = os.position ∧ o.rotation = os.rotation ∧
      o.userData = emptyUserData) := by
  have hdur : (0 : ℚ) < returnAnimationDuration := by norm_num [returnAnimationDuration]
  have hone : (1 : ℚ) ≤ ((now - st.returnAnimationStartTime : ℤ) : ℚ) / returnAnimationDuration := by
    rw [le_div_iff₀ hdur]
    linarith
  have hprog : min 1 (((now - st.returnAnimationStartTime : ℤ) : ℚ) / returnAnimationDuration)
      = 1 := min_eq_left hone
  simp only [updateReturnAnimation, hact, Bool.true_eq_false, if_false, hprog,
    le_refl, if_true, if_pos]
  refine ⟨trivial, trivial, trivial, ?_⟩
  intro o hmem os hbl horig hpar
  rw [List.mem_map] at hmem
  obtain ⟨o1, ho1, rfl⟩ := hmem
  have hid : (returnSnapObject blown orig o1).id = o1.id := by
    unfold returnSnapObject
    split_ifs with h
    · rcases hor : orig.lookup o1.id with _ | os1 <;> simp [hor]
    · rfl
  have hparent : (returnSnapObject blown orig o1).parentName = o1.parentName := by
    unfold returnSnapObject
    split_ifs with h
    · rcases hor : orig.lookup o1.id with _ | os1 <;> simp [hor]
    · rfl
  rw [hid] at hbl horig
  rw [hparent] at hpar
  have hc : (blown.lookup o1.id).isSome = true ∧ o1.parentName ≠ none := ⟨hbl, hpar⟩
  unfold returnSnapObject
  rw [if_pos hc, horig]
  exact ⟨rfl, rfl, rfl⟩

/-- C2 counterexample to the claim as stated: a completed return run on a
one-object scene leaves the `blownApartObjects` map non-empty, so not all
per-object scatter bookkeeping is cleared (only the user-data half is). -/
theorem claim2_counterexample :
    (updateReturnAnimation 20000 ⟨true, 0, false⟩
        [(1, scatterFixtureData)] [(1, ⟨⟨2, 0, 0⟩, ⟨0, 0, 0⟩⟩)]
        [scatteredFixtureObject]).1.isReturnAnimationActive = false ∧
    (updateReturnAnimation 20000 ⟨true, 0, false⟩
        [(1, scatterFixtureData)] [(1, ⟨⟨2, 0, 0⟩, ⟨0, 0, 0⟩⟩)]
        [scatteredFixtureObject]).2.1 ≠ [] := by
  constructor <;>
    norm_num [updateReturnAnimation, returnAnimationDuration]

/-- C2 witness: the amended theorem applied at the concrete completed run. -/
theorem claim2_return_completion_snap_witness :
    (updateReturnAnimation 20000 ⟨true, 0, false⟩
        [(1, scatterFixtureData)] [(1, ⟨⟨2, 0, 0⟩, ⟨0, 0, 0⟩⟩)]
        [scatteredFixtureObject]).1.preventSecondExplosion = true ∧
    (updateReturnAnimation 20000 ⟨true, 0, false⟩
        [(1, scatterFixtureData)] [(1, ⟨⟨2, 0, 0⟩, ⟨0, 0, 0⟩⟩)]
        [scatteredFixtureObject]).2.1 = [(1, scatterFixtureData)] :=
  ⟨(claim2_return_completion_snap 20000 ⟨true, 0, false⟩
      [(1, scatterFixtureData)] [(1, ⟨⟨2, 0, 0⟩, ⟨0, 0, 0⟩⟩)]
      [scatteredFixtureObject] rfl (by norm_num [returnAnimationDuration])).2.1,
   (claim2_return_completion_snap 20000 ⟨true, 0, false⟩
      [(1, scatterFixtureData)] [(1, ⟨⟨2, 0, 0⟩, ⟨0, 0, 0⟩⟩)]
      [scatteredFixtureObject] rfl (by norm_num [returnAnimationDuration])).2.2.1⟩

theorem hue2rgb_first (a bb t : ℚ) (h0 : 0 ≤ t) (h1 : t ≤ 1/6) :
    hue2rgb a bb t = a + (bb - a) * 6 * t := by
  simp only [hue2rgb]
  rw [if_neg (by linarith : ¬ t < 0), if_neg (by linarith : ¬ (1:ℚ) < t)]
  by_cases h : t < 1/6
  · rw [if_pos h]
  · have ht : t = 1/6 := le_antisymm h1 (not_lt.mp h)
    rw [if_neg h, if_pos (by rw [ht]; norm_num)]
    rw [ht]
    ring

theorem hue2rgb_mid (a bb t : ℚ) (h0 : 1/6 ≤ t) (h1 : t ≤ 1/2) :
    hue2rgb a bb t = bb := by
  simp only [hue2rgb]
  rw [if_neg (by linarith : ¬ t < 0), if_neg (by linarith : ¬ (1:ℚ) < t),
    if_neg (by linarith : ¬ t < 1/6)]
  by_cases h : t < 1/2
  · rw [if_pos h]
  · have ht : t = 1/2 := le_antisymm h1 (not_lt.mp h)
    rw [if_neg h, if_pos (by rw [ht]; norm_num)]
    rw [ht]
    ring

theorem hue2rgb_third (a bb t : ℚ) (h0 : 1/2 ≤ t) (h1 : t ≤ 2/3) :
    hue2rgb a bb t = a + (bb - a) * 6 * (2/3 - t) := by
  simp only [hue2rgb]
  rw [if_neg (by linarith : ¬ t < 0), if_neg (by linarith : ¬ (1:ℚ) < t),
    if_neg (by linarith : ¬ t < 1/6)]
  by_cases h : t < 1/2
  · have ht : t = 1/2 := le_antisymm (not_lt.mp (by linarith)) h0
    rw [if_pos h]
    rw [ht]
    ring
  · rw [if_neg h]
    by_cases h2 : t < 2/3
    · rw [if_pos h2]
    · have ht : t = 2/3 := le_antisymm h1 (not_lt.mp h2)
      rw [if_neg h2, ht]
      ring

theorem hue2rgb_last (a bb t : ℚ) (h0 : 2/3 ≤ t) (h1 : t ≤ 1) :
    hue2rgb a bb t = a := by
  simp only [hue2rgb]
  rw [if_neg (by linarith : ¬ t < 0), if_neg (by linarith : ¬ (1:ℚ) < t),
    if_neg (by linarith : ¬ t < 1/6), if_neg (by linarith : ¬ t < 1/2),
    if_neg (by linarith : ¬ t < 2/3)]

theorem hue2rgb_wrapneg (a bb t : ℚ) (h0 : -1 ≤ t) (h1 : t < 0) :
    hue2rgb a bb t = hue2rgb a bb (t + 1) := by
  simp only [hue2rgb]
  rw [if_pos h1, if_neg (by linarith : ¬ (1:ℚ) < t + 1),
    if_neg (by linarith : ¬ t + 1 < 0), if_neg (by linarith : ¬ (1:ℚ) < t + 1)]

theorem hue2rgb_wrappos (a bb t : ℚ) (h0 : 1 < t) (h1 : t ≤ 2) :
    hue2rgb a bb t = hue2rgb a bb (t - 1) := by
  simp only [hue2rgb]
  rw [if_neg (by linarith : ¬ t < 0), if_pos h0,
    if_neg (by linarith : ¬ t - 1 < 0), if_neg (by linarith : ¬ (1:ℚ) < t - 1)]

theorem euclideanModulo_one_self (x : ℚ) (h0 : 0 ≤ x) (h1 : x < 1) :
    euclideanModulo x 1 = x := by
  unfold euclideanModulo
  rw [div_one]
  rw [Int.floor_eq_zero_iff.mpr ⟨h0, h1⟩]
  push_cast
  ring

theorem setHSL_expand (hh ss ll : ℚ) (hh0 : 0 ≤ hh) (hh1 : hh < 1)
    (hs0 : 0 < ss) (hs1 : ss ≤ 1) (hl0 : 0 ≤ ll) (hl1 : ll ≤ 1) :
    setHSL ⟨hh, ss, ll⟩ =
      ⟨hue2rgb (2 * ll - (if ll ≤ 1/2 then ll * (1 + ss) else ll + ss - ll * ss))
               (if ll ≤ 1/2 then ll * (1 + ss) else ll + ss - ll * ss) (hh + 1/3),
       hue2rgb (2 * ll - (if ll ≤ 1/2 then ll * (1 + ss) else ll + ss - ll * ss))
               (if ll ≤ 1/2 then ll * (1 + ss) else ll + ss - ll * ss) hh,
       hue2rgb (2 * ll - (if ll ≤ 1/2 then ll * (1 + ss) else ll + ss - ll * ss))
               (if ll ≤ 1/2 then ll * (1 + ss) else ll + ss - ll * ss) (hh - 1/3)⟩ := by
  simp only [setHSL]
  rw [euclideanModulo_one_self hh hh0 hh1]
  have hscl : clamp ss 0 1 = ss := by
    unfold clamp
    rw [min_eq_right hs1, max_eq_right (le_of_lt hs0)]
  have hlcl : clamp ll 0 1 = ll := by
    unfold clamp
    rw [min_eq_right hl1, max_eq_right hl0]
  rw [hscl, hlcl, if_neg (ne_of_gt hs0)]

theorem setHSL_gray (ll : ℚ) (hl0 : 0 ≤ ll) (hl1 : ll ≤ 1) :
    setHSL ⟨0, 0, ll⟩ = ⟨ll, ll, ll⟩ := by
  simp only [setHSL]
  rw [euclideanModulo_one_self 0 le_rfl (by norm_num)]
  have hscl : clamp 0 0 1 = 0 := by
    unfold clamp
    norm_num
  have hlcl : clamp ll 0 1 = ll := by
    unfold clamp
    rw [min_eq_right hl1, max_eq_right hl0]
  rw [hscl, hlcl, if_pos rfl]

theorem p_low (mn mx : ℚ) (h0 : 0 ≤ mn) (hlt : mn < mx) (hle : mn + mx ≤ 1) :
    ((mn + mx) / 2) * (1 + (mx - mn) / (mx + mn)) = mx := by
  have hden : 0 < mx + mn := by linarith
  field_simp
  ring

theorem p_high (mn mx : ℚ) (h0 : 0 ≤ mn) (hlt : mn < mx) (hmx1 : mx ≤ 1)
    (hgt : 1 < mn + mx) :
    (mn + mx) / 2 + (mx - mn) / (2 - mx - mn)
      - ((mn + mx) / 2) * ((mx - mn) / (2 - mx - mn)) = mx := by
  have hden : 0 < 2 - mx - mn := by linarith
  field_simp
  ring

theorem getHSL_mk (r g b : ℚ) :
    getHSL ⟨r, g, b⟩ =
      if min r (min g b) = max r (max g b) then ⟨0, 0, lightnessOf r g b⟩
      else ⟨hueOf r g b / 6, saturationOf r g b, lightnessOf r g b⟩ := rfl

theorem hue_channels (r g b : ℚ) (h1 : 0 ≤ r) (h2 : r ≤ 1) (h3 : 0 ≤ g)
    (h4 : g ≤ 1) (h5 : 0 ≤ b) (h6 : b ≤ 1)
    (hne : min r (min g b) ≠ max r (max g b)) :
    hue2rgb (min r (min g b)) (max r (max g b)) (hueOf r g b / 6 + 1/3) = r ∧
    hue2rgb (min r (min g b)) (max r (max g b)) (hueOf r g b / 6) = g ∧
    hue2rgb (min r (min g b)) (max r (max g b)) (hueOf r g b / 6 - 1/3) = b := by
  have hminr : min r (min g b) ≤ r := min_le_left _ _
  have hrmax : r ≤ max r (max g b) := le_max_left _ _
  have hming : min r (min g b) ≤ g :=
    le_trans (min_le_right _ _) (min_le_left _ _)
  have hgmax : g ≤ max r (max g b) :=
    le_trans (le_max_left _ _) (le_max_right _ _)
  have hminb : min r (min g b) ≤ b :=
    le_trans (min_le_right _ _) (min_le_right _ _)
  have hbmax : b ≤ max r (max g b) :=
    le_trans (le_max_right _ _) (le_max_right _ _)
  have hlt : min r (min g b) < max r (max g b) :=
    lt_of_le_of_ne (le_trans hminr hrmax) hne
  unfold hueOf
  by_cases hxr : max r (max g b) = r
  · rw [if_pos hxr]
    by_cases hgb : g < b
    · rw [if_pos hgb]
      have hmng : min r (min g b) = g := by
        rw [min_eq_left (le_of_lt hgb)]
        exact min_eq_right (hxr ▸ hgmax)
      rw [hmng, hxr]
      have hglt : g < r := by
        have h := hlt
        rwa [hmng, hxr] at h
      have hbr : b ≤ r := hxr ▸ hbmax
      have hdiv0 : -1 ≤ (g - b) / (r - g) := by
        rw [le_div_iff₀ (by linarith)]
        linarith
      have hdiv1 : (g - b) / (r - g) < 0 :=
        div_neg_of_neg_of_pos (by linarith) (by linarith)
      refine ⟨?_, ?_, ?_⟩
      · rw [hue2rgb_wrappos _ _ _ (by linarith) (by linarith),
          hue2rgb_mid _ _ _ (by linarith) (by linarith)]
      · rw [hue2rgb_last _ _ _ (by linarith) (by linarith)]
      · rw [hue2rgb_third _ _ _ (by linarith) (by linarith)]
        have hne2 : r - g ≠ 0 := ne_of_gt (show (0:ℚ) < r - g by linarith)
        field_simp
        ring
    · rw [if_neg hgb]
      have hmnb : min r (min g b) = b := by
        rw [min_eq_right (not_lt.mp hgb)]
        exact min_eq_right (hxr ▸ hbmax)
      rw [hmnb, hxr]
      have hblt : b < r := by
        have h := hlt
        rwa [hmnb, hxr] at h
      have hbg : b ≤ g := not_lt.mp hgb
      have hgr : g ≤ r := hxr ▸ hgmax
      have hdiv0 : 0 ≤ (g - b) / (r - b) := div_nonneg (by linarith) (by linarith)
      have hdiv1 : (g - b) / (r - b) ≤ 1 := by
        rw [div_le_one (by linarith)]
        linarith
      refine ⟨?_, ?_, ?_⟩
      · rw [hue2rgb_mid _ _ _ (by linarith) (by linarith)]
      · rw [hue2rgb_first _ _ _ (by linarith) (by linarith)]
        have hne2 : r - b ≠ 0 := ne_of_gt (show (0:ℚ) < r - b by linarith)
        field_simp
      · rw [hue2rgb_wrapneg _ _ _ (by linarith) (by linarith),
          hue2rgb_last _ _ _ (by linarith) (by linarith)]
  · rw [if_neg hxr]
    by_cases hxg : max r (max g b) = g
    · rw [if_pos hxg]
      have hminb2 : min g b = b := min_eq_right (hxg ▸ hbmax)
      by_cases hbr : b < r
      · have hmnb : min r (min g b) = b := by
          rw [hminb2]
          exact min_eq_right (le_of_lt hbr)
        rw [hmnb, hxg]
        have hblt2 : b < g := by
          have h := hlt
          rwa [hmnb, hxg] at h
        have hrg : r ≤ g := hxg ▸ hrmax
        have hdiv0 : -1 ≤ (b - r) / (g - b) := by
          rw [le_div_iff₀ (by linarith)]
          linarith
        have hdiv1 : (b - r) / (g - b) < 0 :=
          div_neg_of_neg_of_pos (by linarith) (by linarith)
        refine ⟨?_, ?_, ?_⟩
        · rw [hue2rgb_third _ _ _ (by linarith) (by linarith)]
          have hne2 : g - b ≠ 0 := ne_of_gt (show (0:ℚ) < g - b by linarith)
          field_simp
          ring
        · rw [hue2rgb_mid _ _ _ (by linarith) (by linarith)]
        · rw [hue2rgb_wrapneg _ _ _ (by linarith) (by linarith),
            hue2rgb_last _ _ _ (by linarith) (by linarith)]
      · have hmnr2 : min r (min g b) = r := by
          rw [hminb2]
          exact min_eq_left (not_lt.mp hbr)
        rw [hmnr2, hxg]
        have hrltg : r < g := by
          have h := hlt
          rwa [hmnr2, hxg] at h
        have hrb : r ≤ b := not_lt.mp hbr
        have hbg2 : b ≤ g := hxg ▸ hbmax
        have hdiv0 : 0 ≤ (b - r) / (g - r) := div_nonneg (by linarith) (by linarith)
        have hdiv1 : (b - r) / (g - r) ≤ 1 := by
          rw [div_le_one (by linarith)]
          linarith
        refine ⟨?_, ?_, ?_⟩
        · rw [hue2rgb_last _ _ _ (by linarith) (by linarith)]
        · rw [hue2rgb_mid _ _ _ (by linarith) (by linarith)]
        · rw [hue2rgb_first _ _ _ (by linarith) (by linarith)]
          have hne2 : g - r ≠ 0 := ne_of_gt (show (0:ℚ) < g - r by linarith)
          field_simp
          ring
    · rw [if_neg hxg]
      have hxb : max r (max g b) = b := by
        rcases max_choice r (max g b) with hh | hh
        · exact absurd hh hxr
        · rcases max_choice g b with hh2 | hh2
          · exact absurd (hh.trans hh2) hxg
          · exact hh.trans hh2
      have hming2 : min g b = g := min_eq_left (hxb ▸ hgmax)
      by_cases hgr : g < r
      · have hmng : min r (min g b) = g := by
          rw [hming2]
          exact min_eq_right (le_of_lt hgr)
        rw [hmng, hxb]
        have hglt : g < b := by
          have h := hlt
          rwa [hmng, hxb] at h
        have hrb : r ≤ b := hxb ▸ hrmax
        have hdiv0 : 0 < (r - g) / (b - g) := div_pos (by linarith) (by linarith)
        have hdiv1 : (r - g) / (b - g) ≤ 1 := by
          rw [div_le_one (by linarith)]
          linarith
        refine ⟨?_, ?_, ?_⟩
        · rw [hue2rgb_wrappos _ _ _ (by linarith) (by linarith),
            hue2rgb_first _ _ _ (by linarith) (by linarith)]
          have hne2 : b - g ≠ 0 := ne_of_gt (show (0:ℚ) < b - g by linarith)
          field_simp
          ring
        · rw [hue2rgb_last _ _ _ (by linarith) (by linarith)]
        · rw [hue2rgb_mid _ _ _ (by linarith) (by linarith)]
      · have hmnr2 : min r (min g b) = r := by
          rw [hming2]
          exact min_eq_left (not_lt.mp hgr)
        rw [hmnr2, hxb]
        have hrltb : r < b := by
          have h := hlt
          rwa [hmnr2, hxb] at h
        have hrg2 : r ≤ g := not_lt.mp hgr
        have hgb2 : g ≤ b := hxb ▸ hgmax
        have hdiv0 : (r - g) / (b - r) ≤ 0 :=
          div_nonpos_of_nonpos_of_nonneg (by linarith) (by linarith)
        have hdiv1 : -1 ≤ (r - g) / (b - r) := by
          rw [le_div_iff₀ (by linarith)]
          linarith
        refine ⟨?_, ?_, ?_⟩
        · rw [hue2rgb_last _ _ _ (by linarith) (by linarith)]
        · rw [hue2rgb_third _ _ _ (by linarith) (by linarith)]
          have hne2 : b - r ≠ 0 := ne_of_gt (show (0:ℚ) < b - r by linarith)
          field_simp
          ring
        · rw [hue2rgb_mid _ _ _ (by linarith) (by linarith)]

theorem hsl_roundtrip (r g b : ℚ) (h1 : 0 ≤ r) (h2 : r ≤ 1) (h3 : 0 ≤ g)
    (h4 : g ≤ 1) (h5 : 0 ≤ b) (h6 : b ≤ 1) :
    setHSL (getHSL ⟨r, g, b⟩) = ⟨r, g, b⟩ := by
  have hminr : min r (min g b) ≤ r := min_le_left _ _
  have hrmax : r ≤ max r (max g b) := le_max_left _ _
  have hming : min r (min g b) ≤ g :=
    le_trans (min_le_right _ _) (min_le_left _ _)
  have hgmax : g ≤ max r (max g b) :=
    le_trans (le_max_left _ _) (le_max_right _ _)
  have hminb : min r (min g b) ≤ b :=
    le_trans (min_le_right _ _) (min_le_right _ _)
  have hbmax : b ≤ max r (max g b) :=
    le_trans (le_max_right _ _) (le_max_right _ _)
  rw [getHSL_mk]
  by_cases hne : min r (min g b) = max r (max g b)
  · rw [if_pos hne]
    have hrr : min r (min g b) = r := le_antisymm hminr (hne.symm ▸ hrmax)
    have hgg : min r (min g b) = g := le_antisymm hming (hne.symm ▸ hgmax)
    have hbb : min r (min g b) = b := le_antisymm hminb (hne.symm ▸ hbmax)
    have hl : lightnessOf r g b = r := by
      unfold lightnessOf
      rw [← hne, hrr]
      ring
    rw [hl, setHSL_gray r h1 h2, Color.mk.injEq]
    exact ⟨rfl, by rw [← hrr]; exact hgg, by rw [← hrr]; exact hbb⟩
  · rw [if_neg hne]
    have hlt : min r (min g b) < max r (max g b) :=
      lt_of_le_of_ne (le_trans hminr hrmax) hne
    have hmn0 : 0 ≤ min r (min g b) := le_min h1 (le_min h3 h5)
    have hmx1 : max r (max g b) ≤ 1 := max_le h2 (max_le h4 h6)
    have hl0 : 0 ≤ lightnessOf r g b := by
      unfold lightnessOf
      linarith
    have hl1 : lightnessOf r g b ≤ 1 := by
      unfold lightnessOf
      linarith
    have hs0 : 0 < saturationOf r g b := by
      unfold saturationOf lightnessOf
      split_ifs with hc
      · exact div_pos (by linarith) (by linarith)
      · exact div_pos (by linarith) (by linarith)
    have hs1 : saturationOf r g b ≤ 1 := by
      unfold saturationOf lightnessOf
      split_ifs with hc
      · rw [div_le_one (by linarith)]
        linarith
      · rw [div_le_one (by linarith)]
        linarith
    have hhue0 : 0 ≤ hueOf r g b := by
      unfold hueOf
      split_ifs with hxr hgb hxg
      · have hx : -1 ≤ (g - b) / (max r (max g b) - min r (min g b)) := by
          rw [le_div_iff₀ (by linarith)]
          linarith
        linarith
      · have hx : 0 ≤ (g - b) / (max r (max g b) - min r (min g b)) :=
          div_nonneg (by linarith [not_lt.mp hgb]) (by linarith)
        linarith
      · have hx : -1 ≤ (b - r) / (max r (max g b) - min r (min g b)) := by
          rw [le_div_iff₀ (by linarith)]
          linarith
        linarith
      · have hx : -1 ≤ (r - g) / (max r (max g b) - min r (min g b)) := by
          rw [le_div_iff₀ (by linarith)]
          linarith
        linarith
    have hhue6 : hueOf r g b < 6 := by
      unfold hueOf
      split_ifs with hxr hgb hxg
      · have hx : (g - b) / (max r (max g b) - min r (min g b)) < 0 :=
          div_neg_of_neg_of_pos (by linarith) (by linarith)
        linarith
      · have hx : (g - b) / (max r (max g b) - min r (min g b)) ≤ 1 := by
          rw [div_le_one (by linarith)]
          linarith
        linarith
      · have hx : (b - r) / (max r (max g b) - min r (min g b)) ≤ 1 := by
          rw [div_le_one (by linarith)]
          linarith
        linarith
      · have hx : (r - g) / (max r (max g b) - min r (min g b)) ≤ 1 := by
          rw [div_le_one (by linarith)]
          linarith
        linarith
    rw [setHSL_expand (hueOf r g b / 6) (saturationOf r g b) (lightnessOf r g b)
      (by linarith) (by linarith) hs0 hs1 hl0 hl1]
    obtain ⟨hcr, hcg, hcb⟩ := hue_channels r g b h1 h2 h3 h4 h5 h6 hne
    by_cases hls : lightnessOf r g b ≤ 1/2
    · rw [if_pos hls]
      unfold saturationOf
      rw [if_pos hls]
      unfold lightnessOf
      have hls2 : min r (min g b) + max r (max g b) ≤ 1 := by
        unfold lightnessOf at hls
        linarith
      rw [p_low _ _ hmn0 hlt hls2]
      have hq : 2 * ((min r (min g b) + max r (max g b)) / 2) - max r (max g b)
          = min r (min g b) := by ring
      rw [hq, Color.mk.injEq]
      exact ⟨hcr, hcg, hcb⟩
    · rw [if_neg hls]
      unfold saturationOf
      rw [if_neg hls]
      unfold lightnessOf
      have hls2 : 1 < min r (min g b) + max r (max g b) := by
        unfold lightnessOf at hls
        push_neg at hls
        linarith
      rw [p_high _ _ hmn0 hlt hmx1 hls2]
      have hq : 2 * ((min r (min g b) + max r (max g b)) / 2) - max r (max g b)
          = min r (min g b) := by ring
      rw [hq, Color.mk.injEq]
      exact ⟨hcr, hcg, hcb⟩

theorem modColorStage_preserves (a b c d : ℚ) (o : MObject) :
    (modColorStage a b c d o).hasEmissive = o.hasEmissive ∧
    (modColorStage a b c d o).initialEmissive = o.initialEmissive ∧
    (modColorStage a b c d o).transparent = o.transparent ∧
    (modColorStage a b c d o).initialOpacity = o.initialOpacity ∧
    (modColorStage a b c d o).opacity = o.opacity ∧
    (modColorStage a b c d o).emissive = o.emissive := by
  unfold modColorStage applyColorModulation
  rcases hic : o.initialColor with _ | c0 <;> split_ifs <;> simp [hic]

theorem modEmissiveStage_preserves (a b c d : ℚ) (o : MObject) :
    (modEmissiveStage a b c d o).color = o.color ∧
    (modEmissiveStage a b c d o).uniformColor = o.uniformColor ∧
    (modEmissiveStage a b c d o).transparent = o.transparent ∧
    (modEmissiveStage a b c d o).initialOpacity = o.initialOpacity ∧
    (modEmissiveStage a b c d o).opacity = o.opacity := by
  unfold modEmissiveStage
  rcases hie : o.initialEmissive with _ | e0 <;> split_ifs <;> simp [hie]

theorem modOpacityStage_preserves (a : ℚ) (o : MObject) :
    (modOpacityStage a o).color = o.color ∧
    (modOpacityStage a o).uniformColor = o.uniformColor ∧
    (modOpacityStage a o).emissive = o.emissive := by
  unfold modOpacityStage
  split_ifs <;> simp

theorem applyColorModulation_silence (o : MObject) (c0 : Color)
    (hinit : o.initialColor = some c0) (hr0 : 0 ≤ c0.r) (hr1 : c0.r ≤ 1)
    (hg0 : 0 ≤ c0.g) (hg1 : c0.g ≤ 1) (hb0 : 0 ≤ c0.b) (hb1 : c0.b ≤ 1) :
    applyColorModulation o 1 1 1 1 = { o with color := c0 } := by
  unfold applyColorModulation
  rw [hinit]
  simp only [mul_one]
  have hl_le : (getHSL ⟨c0.r, c0.g, c0.b⟩).l ≤ 1 := by
    have hb : (getHSL ⟨c0.r, c0.g, c0.b⟩).l = lightnessOf c0.r c0.g c0.b := by
      rw [getHSL_mk]
      split_ifs <;> rfl
    rw [hb]
    unfold lightnessOf
    have hx1 : max c0.r (max c0.g c0.b) ≤ 1 := max_le hr1 (max_le hg1 hb1)
    have hx2 : min c0.r (min c0.g c0.b) ≤ c0.r := min_le_left _ _
    linarith
  rw [min_eq_right hl_le]
  have hfin : setHSL ⟨(getHSL ⟨c0.r, c0.g, c0.b⟩).h, (getHSL ⟨c0.r, c0.g, c0.b⟩).s,
      (getHSL ⟨c0.r, c0.g, c0.b⟩).l⟩ = c0 :=
    (hsl_roundtrip c0.r c0.g c0.b hr0 hr1 hg0 hg1 hb0 hb1).trans rfl
  rw [hfin]

/-- C4 (amended): at silence (bass = mid = high = 0) the global pass runs
every object through the per-object function with all modulations and the
pulse equal to 1, which reproduces each modulated object's baseline color
(through the exact HSL round trip), shader uniform color, and emissive
exactly; the opacity of an originally-transparent object with a truthy
stored baseline is set to 0.9 x baseline, not the baseline. -/
theorem claim4_silence_modulation :
    (∀ objs : List MObject,
      applyGlobalAudioEffect ⟨true, objs⟩ 0 0 0
        = ⟨true, objs.map (applyGlobalAudioEffectObject 1 1 1 1 0)⟩) ∧
    (∀ o : MObject,
      o.parentName ≠ some "fairiesGroup" →
      o.parentName ≠ some "audioReactiveParticles" →
      o.name ≠ "audioReactiveParticles" →
      o.isTableOrChair = false →
      o.isMesh = true → o.hasMaterial = true →
      (∀ c0 : Color, o.hasColor = true → o.initialColor = some c0 →
        0 ≤ c0.r → c0.r ≤ 1 → 0 ≤ c0.g → c0.g ≤ 1 → 0 ≤ c0.b → c0.b ≤ 1 →
        (applyGlobalAudioEffectObject 1 1 1 1 0 o).color = c0) ∧
      (∀ c0 : Color, o.hasColor = false → o.hasUniformColor = true →
        o.initialColor = some c0 →
        (applyGlobalAudioEffectObject 1 1 1 1 0 o).uniformColor = c0) ∧
      (∀ e0 : Color, o.hasEmissive = true → o.initialEmissive = some e0 →
        (applyGlobalAudioEffectObject 1 1 1 1 0 o).emissive = e0) ∧
      (∀ v : ℚ, o.transparent = true → o.initialOpacity = some v → v ≠ 0 →
        (applyGlobalAudioEffectObject 1 1 1 1 0 o).opacity = (9/10) * v)) := by
  constructor
  · intro objs
    simp only [applyGlobalAudioEffect]
    norm_num
  · intro o hpf hpp hnp htc hm hmat
    have hresolve : applyGlobalAudioEffectObject 1 1 1 1 0 o
        = modOpacityStage 0 (modEmissiveStage 1 1 1 1 (modColorStage 1 1 1 1 o)) := by
      unfold applyGlobalAudioEffectObject
      rw [if_neg hpf, if_neg hpp, if_neg hnp, if_neg (by simp [htc]),
        if_pos ⟨hm, hmat⟩]
    refine ⟨?_, ?_, ?_, ?_⟩
    · intro c0 hcol hinit hr0 hr1 hg0 hg1 hb0 hb1
      rw [hresolve, (modOpacityStage_preserves _ _).1,
        (modEmissiveStage_preserves _ _ _ _ _).1]
      unfold modColorStage
      rw [if_pos hcol,
        applyColorModulation_silence o c0 hinit hr0 hr1 hg0 hg1 hb0 hb1]
    · intro c0 hcolF huni hinit
      rw [hresolve, (modOpacityStage_preserves _ _).2.1,
        (modEmissiveStage_preserves _ _ _ _ _).2.1]
      unfold modColorStage
      rw [if_neg (by simp [hcolF]), if_pos huni, hinit]
      simp
    · intro e0 hem hie
      rw [hresolve, (modOpacityStage_preserves _ _).2.2]
      have hpc := modColorStage_preserves 1 1 1 1 o
      unfold modEmissiveStage
      rw [hpc.1, hpc.2.1, hie]
      rw [if_pos hem]
      simp
    · intro v htr hio hv
      rw [hresolve]
      have hpc := modColorStage_preserves 1 1 1 1 o
      have hpe := modEmissiveStage_preserves 1 1 1 1 (modColorStage 1 1 1 1 o)
      unfold modOpacityStage
      rw [hpe.2.2.1, hpe.2.2.2.1, hpc.2.2.1, hpc.2.2.2.1, hio]
      rw [if_pos ⟨htr, by simp [hv]⟩]
      simp
      ring

/-- C4 counterexample to the claim as stated: at silence a transparent
object with stored baseline opacity 1 comes out of the global pass with
opacity 9/10, not its baseline - the pass is not the identity on opacity. -/
theorem claim4_counterexample :
    (applyGlobalAudioEffect ⟨true, [transparentFixtureObject]⟩ 0 0 0).objects.map
        MObject.opacity = [9/10] ∧
    transparentFixtureObject.initialOpacity = some 1 ∧
    transparentFixtureObject.opacity = 1 ∧ ((9:ℚ)/10 ≠ 1) := by
  refine ⟨?_, rfl, rfl, by norm_num⟩
  simp only [applyGlobalAudioEffect, transparentFixtureObject]
  norm_num [applyGlobalAudioEffectObject]
  simp +decide
  norm_num [modOpacityStage, modEmissiveStage, modColorStage,
    applyColorModulation]

/-- C4 witness: the amended theorem applied to a concrete red transparent
mesh: color comes back exactly, opacity comes back scaled by 0.9. -/
theorem claim4_silence_modulation_witness :
    (applyGlobalAudioEffectObject 1 1 1 1 0 transparentFixtureObject).color
      = ⟨1, 0, 0⟩ ∧
    (applyGlobalAudioEffectObject 1 1 1 1 0 transparentFixtureObject).opacity
      = (9/10) * 1 :=
  ⟨(claim4_silence_modulation.2 transparentFixtureObject (by decide) (by decide)
      (by decide) rfl rfl rfl).1 ⟨1, 0, 0⟩ rfl rfl (by norm_num) (by norm_num)
      (by norm_num) (by norm_num) (by norm_num) (by norm_num),
   (claim4_silence_modulation.2 transparentFixtureObject (by decide) (by decide)
      (by decide) rfl rfl rfl).2.2.2 1 rfl rfl (by norm_num)⟩
